import Mathlib

/-!
Verification of the review-orchestration core of the AI-bug-detection-model
repository (backend/src/app.py, backend/src/analysis.py, backend/src/model.py),
as a shallow embedding in Lean 4.

The embedding translates:
  * `json.loads` (the strict CPython json decoder) as a fuel-based total parser
    over `List Char` (`jsonLoads`);
  * the `re.search(r"(\x7b[\s\S]*\x7d)", text)` recovery step of
    `review_code` (`extractBraced`; for this pattern a match exists exactly
    when the first brace sits before the last closing brace, and the match is
    the greedy span between them);
  * the normalization block of `review_code` (app.py lines 85-107) as
    `review_code_normalize`;
  * the static-analysis sandbox `run_static_analysis` (analysis.py) with the
    subprocess outcome as an explicit oracle;
  * prompt composition in `review_code` (app.py lines 41-75). The structured
    branch is an f-string whose JSON template uses unescaped braces, so Python
    compiles the template as replacement fields with format specifiers; its
    runtime semantics (CPython `str.__format__`, which rejects those
    specifiers) is embedded via `strFormat`;
  * `generate_review` and `_ensure_model` (model.py), with the global module
    state explicit and the loader/device outcomes as oracles, plus a two-thread
    interleaving model of `_ensure_model` for the concurrency claims.
-/

/-! ## JSON values, as produced by the Python `json.loads` -/

/-- A decoded JSON value. The Python `json` module produces `int` for numbers without
fraction or exponent and `float` otherwise; float arithmetic is out of scope,
so a float keeps its source lexeme. `json.loads` also accepts the non-standard
constants `NaN`, `Infinity` and `-Infinity` by default. -/
inductive J where
  | null
  | bool (b : Bool)
  | int (n : Int)
  | float (lexeme : String)
  | nan
  | infinity (neg : Bool)
  | str (s : String)
  | arr (xs : List J)
  | obj (kvs : List (String × J))

/-- Opening brace character (written via its code point). -/
def lbrace : Char := Char.ofNat 123

/-- Closing brace character (written via its code point). -/
def rbrace : Char := Char.ofNat 125

/-- JSON insignificant whitespace: space, tab, newline, carriage return
(the characters of the Python json `WHITESPACE` regex). -/
def isJsonWs (c : Char) : Bool := c == ' ' || c == '\t' || c == '\n' || c == '\r'

def isDigitChar (c : Char) : Bool := '0' ≤ c && c ≤ '9'

def skipWs : List Char → List Char
  | c :: cs => if isJsonWs c then skipWs cs else c :: cs
  | [] => []

/-- Consume an expected literal (e.g. the tail of `null`); `none` on mismatch. -/
def matchLit : List Char → List Char → Option (List Char)
  | [], cs => some cs
  | _, [] => none
  | l :: ls, c :: cs => if l = c then matchLit ls cs else none

def takeDigits : List Char → List Char × List Char
  | c :: cs =>
    if isDigitChar c then
      let (ds, r) := takeDigits cs
      (c :: ds, r)
    else ([], c :: cs)
  | [] => ([], [])

def digitsToNat (ds : List Char) : Nat :=
  ds.foldl (fun acc c => acc * 10 + (c.toNat - '0'.toNat)) 0

def hexVal (c : Char) : Option Nat :=
  if '0' ≤ c ∧ c ≤ '9' then some (c.toNat - '0'.toNat)
  else if 'a' ≤ c ∧ c ≤ 'f' then some (c.toNat - 'a'.toNat + 10)
  else if 'A' ≤ c ∧ c ≤ 'F' then some (c.toNat - 'A'.toNat + 10)
  else none

/-- Parse a JSON number after the Python json `NUMBER_RE`:
`-?(0|[1-9][0-9]*)(\.[0-9]+)?([eE][+-]?[0-9]+)?`. Integer-valued lexemes
(no fraction, no exponent) decode to Python `int`; the rest to `float`. -/
def parseNumber (cs : List Char) : Option (J × List Char) :=
  let (neg, cs₁) := match cs with
    | '-' :: r => (true, r)
    | _ => (false, cs)
  match cs₁ with
  | c :: r =>
    if ¬ isDigitChar c then none
    else
      -- integer part: a single 0, or a nonzero digit followed by digits
      let (intDs, r₁) : List Char × List Char :=
        if c = '0' then ([c], r)
        else let (ds, r') := takeDigits r; (c :: ds, r')
      let (fracDs, r₂) : List Char × List Char :=
        match r₁ with
        | '.' :: fr =>
          let (ds, r') := takeDigits fr
          if ds = [] then ([], r₁) else ('.' :: ds, r')
        | _ => ([], r₁)
      -- a dot not followed by a digit is not part of the number
      let hadFrac := fracDs ≠ []
      let (expDs, r₃) : List Char × List Char :=
        match r₂ with
        | e :: er =>
          if e = 'e' ∨ e = 'E' then
            let (sgn, er₁) : List Char × List Char := match er with
              | '+' :: t => (['+'], t)
              | '-' :: t => (['-'], t)
              | _ => ([], er)
            let (ds, r') := takeDigits er₁
            if ds = [] then ([], r₂) else (e :: sgn ++ ds, r')
          else ([], r₂)
        | [] => ([], r₂)
      let hadExp := expDs ≠ []
      if hadFrac ∨ hadExp then
        let lex := (if neg then ['-'] else []) ++ intDs ++ fracDs ++ expDs
        some (J.float (String.mk lex), r₃)
      else
        let n : Int := Int.ofNat (digitsToNat intDs)
        some (J.int (if neg then -n else n), r₁)
  | [] => none

/-- Parse the body of a JSON string after the opening quote, strict mode:
unescaped control characters (code point < 0x20) are rejected, the escapes are
the standard eight plus `\uXXXX`. Surrogate-pair combination is applied when a
high surrogate is followed by an escaped low surrogate; a code unit that is not
a valid scalar value falls back through `Char.ofNat` (claim inputs contain no
such escapes). Fuel decreases on every consumed character. -/
def parseStringBody : Nat → List Char → List Char → Option (String × List Char)
  | 0, _, _ => none
  | _ + 1, acc, '"' :: rest => some (String.mk acc.reverse, rest)
  | fuel + 1, acc, '\\' :: esc :: rest =>
    match esc with
    | '"' => parseStringBody fuel ('"' :: acc) rest
    | '\\' => parseStringBody fuel ('\\' :: acc) rest
    | '/' => parseStringBody fuel ('/' :: acc) rest
    | 'b' => parseStringBody fuel (Char.ofNat 8 :: acc) rest
    | 'f' => parseStringBody fuel (Char.ofNat 12 :: acc) rest
    | 'n' => parseStringBody fuel ('\n' :: acc) rest
    | 'r' => parseStringBody fuel ('\r' :: acc) rest
    | 't' => parseStringBody fuel ('\t' :: acc) rest
    | 'u' =>
      match rest with
      | h1 :: h2 :: h3 :: h4 :: rest' =>
        match hexVal h1, hexVal h2, hexVal h3, hexVal h4 with
        | some a, some b, some c, some d =>
          let u := ((a * 16 + b) * 16 + c) * 16 + d
          if 0xD800 ≤ u ∧ u ≤ 0xDBFF then
            -- possible surrogate pair
            match rest' with
            | '\\' :: 'u' :: g1 :: g2 :: g3 :: g4 :: rest'' =>
              match hexVal g1, hexVal g2, hexVal g3, hexVal g4 with
              | some a', some b', some c', some d' =>
                let u2 := ((a' * 16 + b') * 16 + c') * 16 + d'
                if 0xDC00 ≤ u2 ∧ u2 ≤ 0xDFFF then
                  let cp := 0x10000 + (u - 0xD800) * 0x400 + (u2 - 0xDC00)
                  parseStringBody fuel (Char.ofNat cp :: acc) rest''
                else parseStringBody fuel (Char.ofNat u :: acc) rest'
              | _, _, _, _ => parseStringBody fuel (Char.ofNat u :: acc) rest'
            | _ => parseStringBody fuel (Char.ofNat u :: acc) rest'
          else parseStringBody fuel (Char.ofNat u :: acc) rest'
        | _, _, _, _ => none
      | _ => none
    | _ => none
  | fuel + 1, acc, c :: rest =>
    if c.toNat < 0x20 then none else parseStringBody fuel (c :: acc) rest
  | _, _, [] => none

mutual

/-- Parse one JSON value, mirroring the Python json scanner dispatch
(string, object, array, `null`, `true`, `false`, number, `NaN`,
`Infinity`, `-Infinity`). -/
def parseValue : Nat → List Char → Option (J × List Char)
  | 0, _ => none
  | fuel + 1, cs =>
    match cs with
    | [] => none
    | '"' :: rest => (parseStringBody (fuel + 1) [] rest).map (fun (s, r) => (J.str s, r))
    | 'n' :: rest => (matchLit ['u', 'l', 'l'] rest).map (fun r => (J.null, r))
    | 't' :: rest => (matchLit ['r', 'u', 'e'] rest).map (fun r => (J.bool true, r))
    | 'f' :: rest => (matchLit ['a', 'l', 's', 'e'] rest).map (fun r => (J.bool false, r))
    | 'N' :: rest => (matchLit ['a', 'N'] rest).map (fun r => (J.nan, r))
    | 'I' :: rest =>
      (matchLit ['n', 'f', 'i', 'n', 'i', 't', 'y'] rest).map
        (fun r => (J.infinity false, r))
    | c :: rest =>
      if c = lbrace then parseObjStart fuel rest
      else if c = '[' then parseArrStart fuel rest
      else if c = '-' then
        match matchLit ['I', 'n', 'f', 'i', 'n', 'i', 't', 'y'] rest with
        | some r => some (J.infinity true, r)
        | none => parseNumber cs
      else parseNumber cs

/-- After `[`: whitespace, then either `]` or the first element. -/
def parseArrStart (fuel : Nat) (cs : List Char) : Option (J × List Char) :=
  match fuel with
  | 0 => none
  | fuel + 1 =>
    let cs₁ := skipWs cs
    match cs₁ with
    | ']' :: rest => some (J.arr [], rest)
    | _ =>
      match parseValue fuel cs₁ with
      | none => none
      | some (v, r) => parseArrRest fuel [v] r

/-- After an array element: whitespace, then `,` and the next element, or `]`. -/
def parseArrRest (fuel : Nat) (acc : List J) (cs : List Char) : Option (J × List Char) :=
  match fuel with
  | 0 => none
  | fuel + 1 =>
    match skipWs cs with
    | ']' :: rest => some (J.arr acc.reverse, rest)
    | ',' :: rest =>
      match parseValue fuel (skipWs rest) with
      | none => none
      | some (v, r) => parseArrRest fuel (v :: acc) r
    | _ => none

/-- After the opening brace: whitespace, then either the closing brace or the
first `"key": value` member. -/
def parseObjStart (fuel : Nat) (cs : List Char) : Option (J × List Char) :=
  match fuel with
  | 0 => none
  | fuel + 1 =>
    let cs₁ := skipWs cs
    match cs₁ with
    | c :: rest =>
      if c = rbrace then some (J.obj [], rest)
      else if c = '"' then
        match parseStringBody fuel [] rest with
        | none => none
        | some (k, r) => parseObjMember fuel [] k r
      else none
    | [] => none

/-- After a member key: `: value`, then `,` and the next key or the closing
brace. Members are kept in source order. -/
def parseObjMember (fuel : Nat) (acc : List (String × J)) (k : String)
    (cs : List Char) : Option (J × List Char) :=
  match fuel with
  | 0 => none
  | fuel + 1 =>
    match skipWs cs with
    | ':' :: rest =>
      match parseValue fuel (skipWs rest) with
      | none => none
      | some (v, r) =>
        match skipWs r with
        | ',' :: r₂ =>
          match skipWs r₂ with
          | '"' :: r₃ =>
            match parseStringBody fuel [] r₃ with
            | none => none
            | some (k', r₄) => parseObjMember fuel ((k, v) :: acc) k' r₄
          | _ => none
        | c :: r₂ =>
          if c = rbrace then some (J.obj ((k, v) :: acc).reverse, r₂) else none
        | [] => none
    | _ => none

end

/-- Top-level `json.loads`: strip surrounding whitespace, parse exactly one value,
reject trailing non-whitespace (the Python "Extra data" error). The fuel
`length + 1` dominates the recursion because every recursive step has
consumed at least one input character. -/
def jsonLoads (s : String) : Option J :=
  let cs := skipWs s.toList
  match parseValue (s.length + 1) cs with
  | some (v, rest) => if skipWs rest = [] then some v else none
  | none => none

/-! ## Embedded-object extraction (`re.search` of the greedy brace pattern) -/

/-- Index of the first occurrence of `c`, if any. -/
def firstIdx (c : Char) : List Char → Option Nat
  | [] => none
  | x :: xs =>
    if x = c then some 0
    else (firstIdx c xs).map (· + 1)

/-- Index of the last occurrence of `c`, if any. -/
def lastIdx (c : Char) : List Char → Option Nat
  | [] => none
  | x :: xs =>
    match lastIdx c xs with
    | some i => some (i + 1)
    | none => if x = c then some 0 else none

/-- The `re.search(r"(\x7b[\s\S]*\x7d)", text)` step of `review_code`: for this
pattern a match exists exactly when the first `\x7b` precedes some `\x7d`, and
(leftmost position, greedy star) the match runs from the first `\x7b` to the
last `\x7d` of the whole text. -/
def extractBraced (s : String) : Option String :=
  let cs := s.toList
  match firstIdx lbrace cs, lastIdx rbrace cs with
  | some i, some j =>
    if i < j then some (String.mk ((cs.drop i).take (j - i + 1))) else none
  | _, _ => none

/-! ## The normalization block of `review_code` (app.py lines 85-107) -/

/-- The two-stage recovery of `review_code`: `json.loads` on the whole text;
only if that raises, `re.search` for the greedy brace span and `json.loads`
on the captured group (a second failure yields `decoded = None`). Note that a
full-text parse yielding a non-object value counts as stage-1 success: the
substring stage is not consulted. -/
def recoverDecoded (review_text : String) : Option J :=
  match jsonLoads review_text with
  | some v => some v
  | none =>
    match extractBraced review_text with
    | some sub => jsonLoads sub
    | none => none

/-- Python `dict` lookup for an object built from a member list: a later
binding of the same key overrides an earlier one. -/
def jGet : List (String × J) → String → Option J
  | [], _ => none
  | (k, v) :: rest, key =>
    match jGet rest key with
    | some r => some r
    | none => if k = key then some v else none

/-- The response payload assembled by `review_code`. `patches` and `full_file`
are `Option` because the corresponding dict keys are only conditionally added;
`full_file = some J.null` is the key present with value `None`, `none` is the
key absent. `review` is a `J` because the `review` lookup of `decoded` can install
any decoded value. -/
structure Payload where
  review : J
  static_report : String
  patches : Option J
  full_file : Option J

/-- app.py lines 85-107: start from the baseline payload
`(review = raw text, static_report)`; when a remote key is configured
(`structured`), attempt recovery; if a dict was recovered, override `review`
when the key is present, always set `patches` (defaulting to `[]`), and set
`full_file` exactly when the key is present in the dict. (`review_text` is
typed `String`: the `isinstance(review_text, str)` conjunct of the source is
true for it.) -/
def review_code_normalize (structured : Bool) (review_text static_report : String) :
    Payload :=
  let base : Payload :=
    { review := J.str review_text, static_report := static_report
      patches := none, full_file := none }
  if structured then
    match recoverDecoded review_text with
    | some (J.obj kvs) =>
      { review := (jGet kvs "review").getD (J.str review_text)
        static_report := static_report
        patches := some ((jGet kvs "patches").getD (J.arr []))
        full_file := jGet kvs "full_file" }
    | _ => base
  else base

/-! ## CPython `str.__format__` (the format-spec mini-language for `str`)

The structured prompt of `review_code` (app.py lines 42-62) is an f-string
whose JSON template uses unescaped braces, so Python compiles the template
text as replacement fields: the compiled code formats the expression `"op"`
with the specifier `"replace_line", "line": <1-based line number>, ...`, then
`"op"` with the `replace_range` specifier, then `"review"` with the
concatenation of the surrounding template text and those two results, and only
then concatenates the head text, the code and the static report. A specifier
that does not match the mini-language `[[fill]align][width][.precision][s]`
makes `str.__format__` raise `ValueError`; the embedded error message is
simplified to drop the quotes of the CPython message. -/

def isAlignChar (c : Char) : Bool := c = '<' || c = '>' || c = '^' || c = '='

/-- Parse a format specifier for a `str` value: optional fill+align (`=` is
rejected for strings), optional width (a leading `0` means zero-fill, as in
CPython), optional `.precision`, optional trailing type `s`. Returns
`(fill, align, width, precision)` or `none` when the specifier is invalid. -/
def parseStrSpec (cs : List Char) : Option (Char × Char × Nat × Option Nat) :=
  let (fill, align, r₁) : Char × Char × List Char :=
    match cs with
    | a :: b :: rest =>
      if isAlignChar b then (a, b, rest)
      else if isAlignChar a then (' ', a, b :: rest)
      else (' ', '<', cs)
    | [a] => if isAlignChar a then (' ', a, []) else (' ', '<', cs)
    | [] => (' ', '<', [])
  if align = '=' then none
  else
    let (fill, r₁) : Char × List Char :=
      match r₁ with
      | '0' :: rest => (if fill = ' ' then '0' else fill, '0' :: rest)
      | _ => (fill, r₁)
    let (wds, r₂) := takeDigits r₁
    let width := digitsToNat wds
    match r₂ with
    | '.' :: pr =>
      (match takeDigits pr with
       | ([], _) => none
       | (pds, r') =>
         match r' with
         | [] => some (fill, align, width, some (digitsToNat pds))
         | ['s'] => some (fill, align, width, some (digitsToNat pds))
         | _ => none)
    | [] => some (fill, align, width, none)
    | ['s'] => some (fill, align, width, none)
    | _ => none

/-- Apply a parsed specifier to a string: truncate to the precision, then pad
with the fill character to the width according to the alignment. -/
def applyStrSpec (s : String) (fill align : Char) (width : Nat)
    (prec : Option Nat) : String :=
  let t := match prec with
    | some p => String.mk (s.toList.take p)
    | none => s
  if width ≤ t.length then t
  else
    let pad := width - t.length
    match align with
    | '>' => String.mk (List.replicate pad fill) ++ t
    | '^' =>
      String.mk (List.replicate (pad / 2) fill) ++ t ++
        String.mk (List.replicate (pad - pad / 2) fill)
    | _ => t ++ String.mk (List.replicate pad fill)

/-- Formatting `format(s, spec)` for a `str` value: the identity for the empty specifier,
otherwise parse-and-apply, raising (as `Except.error`) on an invalid
specifier. -/
def strFormat (s spec : String) : Except String String :=
  if spec = "" then Except.ok s
  else
    match parseStrSpec spec.toList with
    | some (fill, align, width, prec) =>
      Except.ok (applyStrSpec s fill align width prec)
    | none =>
      Except.error ("Invalid format specifier " ++ spec ++ " for object of type str")

/-! ## Prompt composition (`review_code`, app.py lines 41-75) -/

/-- The specifier attached to the first `"op"` field of the structured
f-string (the `replace_line` template line). -/
def replaceLineSpec : String :=
  "\"replace_line\", \"line\": <1-based line number>, \"content\": \"...\""

/-- The specifier attached to the second `"op"` field (the `replace_range`
template line). -/
def replaceRangeSpec : String :=
  "\"replace_range\", \"start\": <1-based start>, \"end\": <1-based end>, \"content\": \"...\""

/-- Compose the generation prompt, following the compiled form of the two
f-strings of `review_code`. The structured branch (remote key configured)
evaluates the two inner replacement fields, builds the specifier of the outer
`"review"` field from them, formats, and concatenates; an uncaught
`ValueError` from a format step surfaces as `Except.error`. The plain branch
is pure concatenation. All literal pieces are the compiled string constants
of the source, verbatim. -/
def composePrompt (structured : Bool) (code static_report : String) :
    Except String String :=
  if structured then
    match strFormat "op" replaceLineSpec with
    | Except.error e => Except.error e
    | Except.ok s₁ =>
      match strFormat "op" replaceRangeSpec with
      | Except.error e => Except.error e
      | Except.ok s₂ =>
        let outerSpec :=
          " string,            // human-readable summary\n  \"patches\": [                // array of edit operations; may be empty\n    "
          ++ s₁ ++ ",\n    " ++ s₂ ++
          "\n  ],\n  \"full_file\": null|string     // optional full-file replacement as a string\n"
        match strFormat "review" outerSpec with
        | Except.error e => Except.error e
        | Except.ok s₀ =>
          Except.ok
            ("\nYou are an expert code reviewer and patch generator.\nAnalyze the following Python code for logical errors, bugs, bad practices, and improvements.\nReturn JSON only, no additional text. The JSON must have the following shape:\n"
             ++ s₀ ++ "\n\nCode:\n" ++ code
             ++ "\n\nStatic analysis (pylint):\n" ++ static_report
             ++ "\n\nIf you cannot produce patches, return an empty patches array and still include a review string.\n")
  else
    Except.ok
      ("You are an expert code reviewer.\nAnalyze the following Python code for logical errors, bugs, bad practices, and improvements.\nThen summarize your findings.\n\nCode:\n"
       ++ code ++ "\n\nStatic analysis (pylint):\n" ++ static_report
       ++ "\n\nPlease provide a concise, numbered list of issues and suggested fixes.\n")

/-! ## Analysis sandbox (`run_static_analysis`, analysis.py) -/

/-- Outcome of the `subprocess.run` call, as an oracle: either the process
completed (with captured standard output and standard error), or the call
raised (tool missing, timeout, permission error, ...) with the description
`str(e)` of the exception. -/
inductive ProcOutcome where
  | completed (stdout stderr : String)
  | raised (msg : String)

/-- Result of `run_static_analysis`, with the post-call existence of the
scratch file made explicit. -/
structure AnalysisOutcome where
  report : String
  tmpExistsAfter : Bool

/-- Python `or` on strings: the left operand unless it is empty (falsy). -/
def pyStrOr (a b : String) : String := if a = "" then b else a

/-- analysis.py lines 11-46. The `isinstance` branch is dead for a `String`
argument; oversized input returns before the scratch file is created; the
`try` catches every exception of the subprocess call and turns it into the
report text; the `finally` removes the scratch file on both branches (removal
errors are swallowed by the inner `try`; removal itself is assumed to
succeed). The `Except` result records that no exceptional exit escapes to the
caller. -/
def run_static_analysis (code : String) (proc : ProcOutcome) :
    Except String AnalysisOutcome :=
  if code.length > 20000 then
    Except.ok { report := "Code too large for analysis", tmpExistsAfter := false }
  else
    -- tempfile.NamedTemporaryFile(delete=False): the scratch file now exists
    let afterCreate : Bool := true
    -- try/except: both outcomes produce report text, no exception escapes
    let output : String :=
      match proc with
      | ProcOutcome.completed out err => pyStrOr (pyStrOr out err) ""
      | ProcOutcome.raised msg => msg
    -- finally: os.remove(tmp_path) runs on every exit path of the try
    let afterFinally : Bool := afterCreate && false
    Except.ok { report := output, tmpExistsAfter := afterFinally }

/-! ## Generation router (`generate_review` and `_ensure_model`, model.py) -/

/-- The module-level lazy state of model.py: `_tokenizer`, `_model`,
`_device`. Loaded tokenizer and model objects are abstracted as numeric
identifiers; the device as a string. -/
structure MState where
  tok : Option Nat
  mdl : Option Nat
  dev : Option String

/-- model.py lines 34-53, sequentially: if `_model` and `_tokenizer` are both
set, return at once leaving the state untouched. Otherwise set `_device`
(the `_choose_device` result `chosenDev`), then run the import and the two
`from_pretrained` loads — `loadTok` covers the `transformers` import together
with the tokenizer load, `loadMdl` the model load; an `Except.error` is the
description of the raised exception, and the partially mutated state is kept, as
in the source. A failure of the final move-to-device step is caught and
resets `_device` to `"cpu"`. Returns the new state and the escaped
exception, if any. -/
def ensure_model (s : MState) (chosenDev : String)
    (loadTok loadMdl : Except String Nat) (moveFails : Bool) :
    MState × Option String :=
  if s.mdl.isSome && s.tok.isSome then (s, none)
  else
    let s₁ := { s with dev := some chosenDev }
    match loadTok with
    | Except.error e => (s₁, some e)
    | Except.ok t =>
      let s₂ := { s₁ with tok := some t }
      match loadMdl with
      | Except.error e => (s₂, some e)
      | Except.ok m =>
        let s₃ := { s₂ with mdl := some m }
        if moveFails then ({ s₃ with dev := some "cpu" }, none) else (s₃, none)

/-- The fixed dev-fallback text of `generate_review` (model.py lines 119-123),
with the triggering initialization error spliced in. -/
def devFallbackReview (e : String) : String :=
  "[DEV REVIEW] Model unavailable: " ++ e ++
    "\n\nThis is a fallback review used for development."

/-- model.py lines 101-144. `geminiConfigured` is the truthiness of
`GEMINI_API_KEY`; when it holds, the remote call (`geminiResult`, which may
raise) is returned unchanged. Otherwise `_ensure_model` runs: if it raises,
the call returns the dev-fallback text normally; if it succeeds, the local
generation (`localGen`, an oracle over the ready state and the prompt) runs.
Returns the outcome together with the module state after the call. -/
def generate_review (geminiConfigured : Bool)
    (geminiResult : Except String String) (s : MState) (chosenDev : String)
    (loadTok loadMdl : Except String Nat) (moveFails : Bool)
    (localGen : MState → String → String) (prompt : String) :
    Except String String × MState :=
  if geminiConfigured then (geminiResult, s)
  else
    match ensure_model s chosenDev loadTok loadMdl moveFails with
    | (s', some e) => (Except.ok (devFallbackReview e), s')
    | (s', none) => (Except.ok (localGen s' prompt), s')

/-! ## The `/review` endpoint (`review_code`, app.py lines 27-107) -/

/-- An HTTP error outcome (`HTTPException` status and detail, or the
transport-produced validation failure). -/
structure HttpErr where
  status : Nat
  detail : String

/-- Pipeline events, recording which external work the handler performed. -/
inductive Ev where
  | analysis
  | generation

/-- app.py lines 27-107 as a function of the request `code` string and the
oracles, returning the outcome together with the performed work, in order:
the two validation rejections (400 empty, 413 oversized) happen before any
work; then the static analysis runs; then the prompt is composed — in the
structured branch this raises, and since the handler only wraps the
`generate_review` call in `try`, the exception reaches the transport, which
answers with a generic 500; then generation runs, its exceptions becoming a
500 with the `Model generation error:` detail; finally the normalization
block builds the payload. -/
def review_code (geminiConfigured : Bool) (proc : ProcOutcome)
    (geminiResult : Except String String) (s : MState) (chosenDev : String)
    (loadTok loadMdl : Except String Nat) (moveFails : Bool)
    (localGen : MState → String → String) (code : String) :
    Except HttpErr Payload × List Ev :=
  if code = "" then
    (Except.error { status := 400, detail := "Missing code in request" }, [])
  else if code.length > 20000 then
    (Except.error { status := 413, detail := "Code payload too large" }, [])
  else
    match run_static_analysis code proc with
    | Except.error _ =>
      -- unreachable: the sandbox never raises
      (Except.error { status := 500, detail := "Internal Server Error" }, [Ev.analysis])
    | Except.ok ar =>
      let static_report := ar.report
      match composePrompt geminiConfigured code static_report with
      | Except.error _ =>
        (Except.error { status := 500, detail := "Internal Server Error" },
          [Ev.analysis])
      | Except.ok prompt =>
        match (generate_review geminiConfigured geminiResult s chosenDev
            loadTok loadMdl moveFails localGen prompt).1 with
        | Except.error e =>
          (Except.error { status := 500, detail := "Model generation error: " ++ e },
            [Ev.analysis, Ev.generation])
        | Except.ok review_text =>
          (Except.ok (review_code_normalize geminiConfigured review_text static_report),
            [Ev.analysis, Ev.generation])

/-- Modelled from the spec: the inbound transport validation (FastAPI with the
pydantic `ReviewRequest` model) is an excluded external collaborator, not
under src/. Per the inbound-boundary description of the spec and the repository
test expectations, a request whose `code` field is absent or not a string is
answered with a 422 validation failure before the handler runs; a string
`code` is handed to the handler. -/
def validate_body (codeField : Option J) : Except HttpErr String :=
  match codeField with
  | some (J.str s) => Except.ok s
  | some _ =>
    Except.error { status := 422, detail := "Input should be a valid string" }
  | none => Except.error { status := 422, detail := "Field required" }

/-- The full inbound boundary: transport validation, then the handler. -/
def handle (geminiConfigured : Bool) (proc : ProcOutcome)
    (geminiResult : Except String String) (s : MState) (chosenDev : String)
    (loadTok loadMdl : Except String Nat) (moveFails : Bool)
    (localGen : MState → String → String) (codeField : Option J) :
    Except HttpErr Payload × List Ev :=
  match validate_body codeField with
  | Except.error e => (Except.error e, [])
  | Except.ok code =>
    review_code geminiConfigured proc geminiResult s chosenDev loadTok loadMdl
      moveFails localGen code

/-! ## Two concurrent first calls to `_ensure_model`

`_ensure_model` takes no lock: its guard is a plain read of the globals
followed, on the slow path, by the device selection and the two loads. The
interleaving model runs two threads of that program, counting how many times
the `AutoModelForCausalLM.from_pretrained` load executes. Program counters:
0 = about to run the guard; 1 = about to set `_device`; 2 = about to load the
tokenizer; 3 = about to load the model; 4 = returned. -/

/-- The shared process state: the module globals plus the number of model
loads performed. -/
structure GState where
  ms : MState
  modelLoads : Nat

/-- One atomic step of a thread running `_ensure_model` (the granularity of
the interleaving is one global-state access). -/
def threadStep (g : GState) (pc : Nat) : GState × Nat :=
  match pc with
  | 0 => if g.ms.mdl.isSome && g.ms.tok.isSome then (g, 4) else (g, 1)
  | 1 => ({ g with ms := { g.ms with dev := some "cuda" } }, 2)
  | 2 => ({ g with ms := { g.ms with tok := some 1 } }, 3)
  | 3 =>
    let g' := { g with ms := { g.ms with mdl := some 1 } }
    ({ g' with modelLoads := g'.modelLoads + 1 }, 4)
  | _ => (g, pc)

/-- Run a schedule: `true` steps thread A, `false` steps thread B. -/
def runSched : List Bool → GState × Nat × Nat → GState × Nat × Nat
  | [], st => st
  | tid :: rest, (g, pcA, pcB) =>
    if tid then
      let (g', pcA') := threadStep g pcA
      runSched rest (g', pcA', pcB)
    else
      let (g', pcB') := threadStep g pcB
      runSched rest (g', pcA, pcB')

/-- Two first requests against the uninitialized module state. -/
def runBoth (sched : List Bool) : GState × Nat × Nat :=
  runSched sched (⟨⟨none, none, none⟩, 0⟩, 0, 0)

/-! ## Claims -/

/-- Claim C1: normalizer round-trip. For raw provider text equal to the JSON
serialization of the object with review "R", empty patches and null full_file,
normalizing with structured output expected yields review "R", patches equal
to the empty list (key present), and the full_file key present with value
null — distinguishing present-with-null from absent — while the static report
is passed through unchanged. -/
theorem c1_normalizer_round_trip (sr : String) :
    review_code_normalize true
        "\x7b\"review\": \"R\", \"patches\": [], \"full_file\": null\x7d" sr =
      { review := J.str "R", static_report := sr,
        patches := some (J.arr []), full_file := some J.null } := rfl

/-- Claim C2 (amended): malformed-input fallback. For every raw provider text
from which no JSON object is recovered, normalizing with structured output
expected keeps the baseline payload: review equals the raw text, the static
report is passed through, and the patches and full_file keys are absent
(the source only adds a patches key when a JSON object was recovered). -/
theorem c2_malformed_fallback (raw sr : String)
    (h : ∀ kvs, recoverDecoded raw ≠ some (J.obj kvs)) :
    review_code_normalize true raw sr =
      { review := J.str raw, static_report := sr,
        patches := none, full_file := none } := by
  unfold review_code_normalize
  cases hrec : recoverDecoded raw with
  | none => simp [hrec]
  | some v =>
    cases v with
    | obj kvs => exact absurd hrec (h kvs)
    | null => simp [hrec]
    | bool b => simp [hrec]
    | int n => simp [hrec]
    | float l => simp [hrec]
    | nan => simp [hrec]
    | infinity n => simp [hrec]
    | str t => simp [hrec]
    | arr xs => simp [hrec]

/-- Witness for claim C2 at the concrete malformed text. -/
theorem c2_malformed_fallback_witness :
    review_code_normalize true "not json at all" "W" =
      { review := J.str "not json at all", static_report := "W",
        patches := none, full_file := none } :=
  c2_malformed_fallback "not json at all" "W" (by
    intro kvs h
    rw [show recoverDecoded "not json at all" = none from rfl] at h
    exact Option.noConfusion h)

/-- Counterexample for claim C2 as stated: for the malformed text the
returned payload has no patches key at all (`none`), not a present empty
list, so the claim that patches equals the empty list fails. -/
theorem c2_counterexample :
    (review_code_normalize true "not json at all" "SR").patches = none ∧
      (review_code_normalize true "not json at all" "SR").patches ≠
        some (J.arr []) := by
  refine ⟨rfl, ?_⟩
  intro h
  rw [show (review_code_normalize true "not json at all" "SR").patches = none
      from rfl] at h
  exact Option.noConfusion h

/-- Claim C3 (code bug): with a remote credential configured the structured
branch of `review_code` never composes a prompt: the unescaped braces of the
f-string make the JSON template a format specifier, and the very first
formatting step raises ValueError for every code and report, instead of
producing the JSON-contract prompt the spec describes. -/
theorem c3_structured_compose_raises (code report : String) :
    composePrompt true code report =
      Except.error ("Invalid format specifier " ++ replaceLineSpec ++
        " for object of type str") := rfl

/-- Claim C4: sandbox totality and cleanup. For every input string and every
subprocess outcome the sandbox returns normally (no exceptional exit), the
scratch file does not survive the call, oversized input yields the explanatory
report without running the tool, and a tool failure or timeout (a raised
subprocess call whose exception description is the non-empty `str(e)`)
yields exactly that non-empty explanatory text. -/
theorem c4_sandbox_total_cleanup (code : String) (proc : ProcOutcome) :
    ∃ r, run_static_analysis code proc = Except.ok r ∧
      r.tmpExistsAfter = false ∧
      (code.length > 20000 → r.report = "Code too large for analysis") ∧
      (¬ code.length > 20000 →
        ∀ msg, proc = ProcOutcome.raised msg → msg ≠ "" →
          r.report = msg ∧ r.report ≠ "") := by
  unfold run_static_analysis
  by_cases h : code.length > 20000
  · rw [if_pos h]
    exact ⟨_, rfl, rfl, fun _ => rfl, fun hn => absurd h hn⟩
  · rw [if_neg h]
    refine ⟨_, rfl, rfl, fun hb => absurd hb h, ?_⟩
    intro _ msg hp hm
    subst hp
    exact ⟨rfl, hm⟩

/-- Witness for claim C4 at a concrete input and a concrete timeout
exception. -/
theorem c4_sandbox_witness :
    ∃ r, run_static_analysis "x"
        (ProcOutcome.raised "Command pylint timed out after 10 seconds") =
        Except.ok r ∧
      r.tmpExistsAfter = false ∧
      r.report = "Command pylint timed out after 10 seconds" := by
  obtain ⟨r, h1, h2, _, h4⟩ :=
    c4_sandbox_total_cleanup "x"
      (ProcOutcome.raised "Command pylint timed out after 10 seconds")
  exact ⟨r, h1, h2, (h4 (by decide) _ rfl (by decide)).1⟩

/-- Claim C5: deterministic dev fallback. With no remote credential
configured, whenever local-provider initialization fails with some error
description, `generate_review` returns normally with the fixed labeled
placeholder embedding that description. -/
theorem c5_dev_fallback (gr : Except String String) (s : MState)
    (dev : String) (lt lm : Except String Nat) (mv : Bool)
    (lg : MState → String → String) (prompt e : String)
    (h : (ensure_model s dev lt lm mv).2 = some e) :
    (generate_review false gr s dev lt lm mv lg prompt).1 =
      Except.ok ("[DEV REVIEW] Model unavailable: " ++ e ++
        "\n\nThis is a fallback review used for development.") := by
  rcases hE : ensure_model s dev lt lm mv with ⟨s', r⟩
  have hr : r = some e := by rw [hE] at h; exact h
  subst hr
  unfold generate_review
  rw [hE]
  rfl

/-- Witness for claim C5 at a concrete failed import. -/
theorem c5_dev_fallback_witness :
    (generate_review false (Except.ok "g") ⟨none, none, none⟩ "cpu"
        (Except.error "No module named transformers") (Except.ok 1) false
        (fun _ _ => "") "P").1 =
      Except.ok ("[DEV REVIEW] Model unavailable: " ++
        "No module named transformers" ++
        "\n\nThis is a fallback review used for development.") :=
  c5_dev_fallback (Except.ok "g") ⟨none, none, none⟩ "cpu"
    (Except.error "No module named transformers") (Except.ok 1) false
    (fun _ _ => "") "P" "No module named transformers" rfl

/-- The length of a string built from a replicated character. -/
theorem length_mk_replicate (n : Nat) (c : Char) :
    (String.mk (List.replicate n c)).length = n := by
  show (List.replicate n c).length = n
  simp

/-- Passing both validation checks always reaches the static-analysis call. -/
theorem analysis_reached (gem : Bool) (proc : ProcOutcome)
    (gr : Except String String) (s : MState) (dev : String)
    (lt lm : Except String Nat) (mv : Bool) (lg : MState → String → String)
    (code : String) (h1 : code ≠ "") (h2 : ¬ code.length > 20000) :
    Ev.analysis ∈ (review_code gem proc gr s dev lt lm mv lg code).2 := by
  unfold review_code
  rw [if_neg h1, if_neg h2]
  cases hr : run_static_analysis code proc with
  | error e => simp
  | ok ar =>
    cases hc : composePrompt gem code ar.report with
    | error e => simp [hc]
    | ok p =>
      cases hg : (generate_review gem gr s dev lt lm mv lg p).1 with
      | error e => simp [hc, hg]
      | ok t => simp [hc, hg]

/-- Claim C6: oversized-input rejection. A request whose code is strictly
longer than 20000 characters is answered with the 413 client-side failure and
neither the analysis nor the generation step runs; a request of length
exactly 20000 is not rejected by this check: the pipeline proceeds into the
static-analysis call. -/
theorem c6_oversized_rejection (gem : Bool) (proc : ProcOutcome)
    (gr : Except String String) (s : MState) (dev : String)
    (lt lm : Except String Nat) (mv : Bool) (lg : MState → String → String)
    (code : String) :
    (code.length > 20000 →
      handle gem proc gr s dev lt lm mv lg (some (J.str code)) =
        (Except.error { status := 413, detail := "Code payload too large" },
          [])) ∧
    (code.length = 20000 → code ≠ "" →
      Ev.analysis ∈
        (handle gem proc gr s dev lt lm mv lg (some (J.str code))).2) := by
  constructor
  · intro h
    have hne : code ≠ "" := by
      intro he
      subst he
      exact absurd h (by decide)
    show review_code gem proc gr s dev lt lm mv lg code = _
    unfold review_code
    rw [if_neg hne, if_pos h]
  · intro h20 hne
    show Ev.analysis ∈ (review_code gem proc gr s dev lt lm mv lg code).2
    exact analysis_reached gem proc gr s dev lt lm mv lg code hne
      (by rw [h20]; decide)

/-- Witness for claim C6 at concrete lengths 20001 and 20000. -/
theorem c6_oversized_rejection_witness :
    handle false (ProcOutcome.completed "" "") (Except.ok "g")
        ⟨none, none, none⟩ "cpu" (Except.ok 1) (Except.ok 1) false
        (fun _ _ => "")
        (some (J.str (String.mk (List.replicate 20001 'a')))) =
      (Except.error { status := 413, detail := "Code payload too large" },
        []) ∧
    Ev.analysis ∈
      (handle false (ProcOutcome.completed "" "") (Except.ok "g")
        ⟨none, none, none⟩ "cpu" (Except.ok 1) (Except.ok 1) false
        (fun _ _ => "")
        (some (J.str (String.mk (List.replicate 20000 'a'))))).2 := by
  constructor
  · exact (c6_oversized_rejection false (ProcOutcome.completed "" "")
      (Except.ok "g") ⟨none, none, none⟩ "cpu" (Except.ok 1) (Except.ok 1)
      false (fun _ _ => "") (String.mk (List.replicate 20001 'a'))).1
      (by rw [length_mk_replicate]; decide)
  · refine (c6_oversized_rejection false (ProcOutcome.completed "" "")
      (Except.ok "g") ⟨none, none, none⟩ "cpu" (Except.ok 1) (Except.ok 1)
      false (fun _ _ => "") (String.mk (List.replicate 20000 'a'))).2
      (length_mk_replicate 20000 'a') ?_
    intro he
    have := congrArg String.length he
    rw [length_mk_replicate] at this
    exact absurd this (by decide)

/-- Claim C7 (amended): missing-code rejection. Empty code is rejected by the
handler with the 400 failure carrying the missing-code detail; absent or
non-string code never reaches the handler and is rejected by the transport
validation with a 422 client-side failure whose detail is a validation
message, not the missing-code detail. In every case the rejection happens
before any analysis or generation work. -/
theorem c7_missing_code_rejection (gem : Bool) (proc : ProcOutcome)
    (gr : Except String String) (s : MState) (dev : String)
    (lt lm : Except String Nat) (mv : Bool) (lg : MState → String → String) :
    (handle gem proc gr s dev lt lm mv lg (some (J.str "")) =
      (Except.error { status := 400, detail := "Missing code in request" },
        [])) ∧
    (∀ v : J, (∀ t, v ≠ J.str t) →
      handle gem proc gr s dev lt lm mv lg (some v) =
        (Except.error
          { status := 422, detail := "Input should be a valid string" },
          [])) ∧
    (handle gem proc gr s dev lt lm mv lg none =
      (Except.error { status := 422, detail := "Field required" }, [])) := by
  refine ⟨rfl, ?_, rfl⟩
  intro v hv
  cases v
  case str t => exact absurd rfl (hv t)
  all_goals rfl

/-- Witness for claim C7 at a concrete non-string code field. -/
theorem c7_missing_code_rejection_witness :
    handle false (ProcOutcome.completed "" "") (Except.ok "g")
        ⟨none, none, none⟩ "cpu" (Except.ok 1) (Except.ok 1) false
        (fun _ _ => "") (some (J.int 123)) =
      (Except.error
        { status := 422, detail := "Input should be a valid string" },
        []) :=
  (c7_missing_code_rejection false (ProcOutcome.completed "" "")
    (Except.ok "g") ⟨none, none, none⟩ "cpu" (Except.ok 1) (Except.ok 1)
    false (fun _ _ => "")).2.1 (J.int 123) (fun _ h => J.noConfusion h)

/-- Counterexample for claim C7 as stated: a request whose code is a
non-string is rejected by the transport validation, and the failure it
carries is the type-validation detail, not a missing-code reason (the only
missing-code detail in the system is the handler 400 text). -/
theorem c7_counterexample :
    (handle false (ProcOutcome.completed "" "") (Except.ok "g")
        ⟨none, none, none⟩ "cpu" (Except.ok 1) (Except.ok 1) false
        (fun _ _ => "") (some (J.bool true))).1 =
      Except.error
        { status := 422, detail := "Input should be a valid string" } ∧
    "Input should be a valid string" ≠ "Missing code in request" :=
  ⟨rfl, by decide⟩

/-- Claim C8: embedded-JSON recovery. Recovery parses the whole raw text
first and consults the brace-delimited substring only when the full parse
fails; on the concrete provider text with surrounding prose the recovered
result has review "ok" and exactly the one-element patch list whose entry
has op replace_line, line 2 and content "pass", in insertion order with
nothing dropped. -/
theorem c8_embedded_json_recovery :
    (∀ raw v, jsonLoads raw = some v → recoverDecoded raw = some v) ∧
    (∀ raw, jsonLoads raw = none →
      recoverDecoded raw = Option.bind (extractBraced raw) jsonLoads) ∧
    (∀ sr, review_code_normalize true
        "Here is the result:\n\x7b\"review\":\"ok\",\"patches\":[\x7b\"op\":\"replace_line\",\"line\":2,\"content\":\"pass\"\x7d]\x7d\nThanks."
        sr =
      { review := J.str "ok", static_report := sr,
        patches := some (J.arr [J.obj [("op", J.str "replace_line"),
          ("line", J.int 2), ("content", J.str "pass")]]),
        full_file := none }) := by
  refine ⟨?_, ?_, fun sr => rfl⟩
  · intro raw v h
    unfold recoverDecoded
    rw [h]
  · intro raw h
    unfold recoverDecoded
    rw [h]
    cases hb : extractBraced raw <;> rfl

/-- Witness for claim C8: a full-text parse that succeeds short-circuits, and
a failing full-text parse falls through to the substring stage. -/
theorem c8_embedded_json_recovery_witness :
    recoverDecoded "\x7b\x7d" = some (J.obj []) ∧
      recoverDecoded "x \x7b\x7d" =
        Option.bind (extractBraced "x \x7b\x7d") jsonLoads :=
  ⟨c8_embedded_json_recovery.1 "\x7b\x7d" (J.obj []) rfl,
   c8_embedded_json_recovery.2.1 "x \x7b\x7d" rfl⟩

/-- Claim C9 (amended): the lazy initialization of the local provider is
skipped once the model and tokenizer are set, so a completed first call keeps
later sequential calls from loading again (one model load when the second
request starts after the first finished); but the guard takes no lock, and
two concurrent first calls can interleave so that the model load runs
twice. -/
theorem c9_unguarded_concurrent_init :
    (runBoth [true, true, true, true, false, false, false, false]).1.modelLoads
      = 1 ∧
    (runBoth [true, false, true, true, true, false, false, false]).1.modelLoads
      = 2 := ⟨rfl, rfl⟩

/-- Counterexample for claim C9 as stated: an explicit interleaving of two
concurrent first calls in which both threads pass the unguarded check before
either load, triggering the model load twice — duplicate loads are not
prevented. -/
theorem c9_counterexample :
    (runBoth [true, false, true, true, true, false, false, false]).1.modelLoads
      = 2 ∧
    ¬ (runBoth
        [true, false, true, true, true, false, false, false]).1.modelLoads
      ≤ 1 := ⟨rfl, by decide⟩

/-- After a call of `ensure_model` that escaped no exception, the tokenizer
and the model slots are both filled. -/
theorem ensure_model_ok_isSome (s : MState) (dev : String)
    (lt lm : Except String Nat) (mv : Bool) (s₁ : MState)
    (h : ensure_model s dev lt lm mv = (s₁, none)) :
    s₁.tok.isSome = true ∧ s₁.mdl.isSome = true := by
  unfold ensure_model at h
  by_cases hc : (s.mdl.isSome && s.tok.isSome) = true
  · rw [if_pos hc] at h
    injection h with hA hB
    subst hA
    exact ⟨(Bool.and_eq_true _ _ |>.mp hc).2, (Bool.and_eq_true _ _ |>.mp hc).1⟩
  · rw [if_neg hc] at h
    cases lt with
    | error e => injection h with hA hB; exact Option.noConfusion hB
    | ok t =>
      cases lm with
      | error e => injection h with hA hB; exact Option.noConfusion hB
      | ok m =>
        cases mv with
        | true => injection h with hA hB; subst hA; exact ⟨rfl, rfl⟩
        | false => injection h with hA hB; subst hA; exact ⟨rfl, rfl⟩

/-- Claim C10: sequential idempotence of the initialization. When the model
and tokenizer slots are already filled, `ensure_model` returns at once with
the state unchanged and no error; consequently, after any call that returned
without an error, a second call (with any oracles) is a no-op on the state,
so running the initialization twice in sequence equals running it once. -/
theorem c10_sequential_idempotence :
    (∀ (s : MState) (dev : String) (lt lm : Except String Nat) (mv : Bool)
        (t m : Nat), s.tok = some t → s.mdl = some m →
      ensure_model s dev lt lm mv = (s, none)) ∧
    (∀ (s : MState) (dev : String) (lt lm : Except String Nat) (mv : Bool)
        (dev₂ : String) (lt₂ lm₂ : Except String Nat) (mv₂ : Bool)
        (s₁ : MState), ensure_model s dev lt lm mv = (s₁, none) →
      ensure_model s₁ dev₂ lt₂ lm₂ mv₂ = (s₁, none)) := by
  have key : ∀ (s : MState) (dev : String) (lt lm : Except String Nat)
      (mv : Bool), s.tok.isSome = true → s.mdl.isSome = true →
      ensure_model s dev lt lm mv = (s, none) := by
    intro s dev lt lm mv ht hm
    unfold ensure_model
    rw [if_pos (by rw [ht, hm]; rfl)]
  constructor
  · intro s dev lt lm mv t m ht hm
    exact key s dev lt lm mv (by rw [ht]; rfl) (by rw [hm]; rfl)
  · intro s dev lt lm mv dev₂ lt₂ lm₂ mv₂ s₁ h
    obtain ⟨ht, hm⟩ := ensure_model_ok_isSome s dev lt lm mv s₁ h
    exact key s₁ dev₂ lt₂ lm₂ mv₂ ht hm

/-- Witness for claim C10: a filled state is untouched, and a successful
first call makes the second call (with different oracles) a no-op. -/
theorem c10_sequential_idempotence_witness :
    ensure_model ⟨some 1, some 2, some "cpu"⟩ "cuda" (Except.error "x")
        (Except.error "x") true = (⟨some 1, some 2, some "cpu"⟩, none) ∧
      ensure_model ⟨some 1, some 2, some "cuda"⟩ "mps" (Except.ok 3)
        (Except.ok 4) false = (⟨some 1, some 2, some "cuda"⟩, none) :=
  ⟨c10_sequential_idempotence.1 ⟨some 1, some 2, some "cpu"⟩ "cuda"
      (Except.error "x") (Except.error "x") true 1 2 rfl rfl,
   c10_sequential_idempotence.2 ⟨none, none, none⟩ "cuda" (Except.ok 1)
      (Except.ok 2) false "mps" (Except.ok 3) (Except.ok 4) false
      ⟨some 1, some 2, some "cuda"⟩ rfl⟩
